import Mathlib

/-!
Verification of the mbqcirq measurement-based quantum computation library.

This file shallowly embeds the data model of the repository:

* `mbqcirq/gates/single_qubit.py` — the `SU2Gate` operation dictionary and its
  Pauli-power specializations (`XPowGate`, `X`, `YPowGate`, `Y`, `ZPowGate`, `Z`);
* `mbqcirq/measurements/projectors.py` — the decompositions of
  `Projector_B_phi`, `Projector_X`, `Projector_Y`, `Projector_Z`;
* `mbqcirq/states/graph_states.py` — `AbstractGraphState` qubit initialization,
  initialization-circuit construction, eager state-vector computation and
  `get_qubit` lookup;
* the Gate Graph Executor and classical outcome store, which the repository's
  specification describes but whose code is not shipped in the sources
  (modelled from the spec where so marked).

Angles are floats in the Python source; they are embedded polymorphically over
a commutative ring (a field where division by pi occurs), with the constant
`np.pi` passed as an explicit ring element `piv`, so that every definition
stays computable and theorems can be instantiated at rational inputs.
-/

set_option autoImplicit false

namespace MBQCirq

/-! ## Gate graph model (`mbqcirq/gates/single_qubit.py`, `mbqcirq/gates/__init__.py`) -/

/-- Parameter record returned by the projector parameter providers
`_f_params_q0_t0` .. `_f_params_q3_t0`: a basis angle `phi` and the
measurement label under which the outcome is stored. -/
structure ProjParams (R : Type) where
  phi : R
  measurement_label : String

/-- Parameter record returned by the corrective-unitary parameter providers
`_f_params_q4_t0` and `_f_params_q4_t1`: the exponent of the power gate.
The inputs are measurement outcome bits, so the exponent is a natural
number. -/
structure ExpParams where
  exponent : Nat
deriving DecidableEq

/-- The gate classes referenced in the `gates` entries of the operation
dictionary: `Projector_B_phi`, `cirq.XPowGate` and `cirq.ZPowGate`. -/
inductive GateRef where
  | projB
  | xPow
  | zPow
deriving DecidableEq

/-- A parameter provider stored in the `parameters` entry of the operation
dictionary.  The Python providers are bound methods of arity 0, 1 or 2;
arity-0 providers are embedded by their (constant) return value. -/
inductive ParamFun (R : Type) where
  | ar0 (p : ProjParams R)
  | ar1 (f : Nat → ProjParams R)
  | ar2 (f : Nat → Nat → ExpParams)

/-- One value of the `SU2Gate._operation_dictionary`: the three per-node
sequences `gates`, `parameters` and `previous_measurement_dependencies`. -/
structure NodeOps (R : Type) where
  gates : List GateRef
  parameters : List (ParamFun R)
  previous_measurement_dependencies : List (Option (List String))

/-- `SU2Gate._f_params_q0_t0`: `phi = 0`, label `b_q0[<gate_label>]`. -/
def f_params_q0_t0 {R : Type} [CommRing R] (L : String) : ProjParams R :=
  ⟨0, "b_q0[" ++ L ++ "]"⟩

/-- `SU2Gate._f_params_q1_t0`: `phi = -alpha * (-1) ** b_q0`,
label `b_q1[<gate_label>]`. -/
def f_params_q1_t0 {R : Type} [CommRing R] (alpha : R) (L : String)
    (b_q0 : Nat) : ProjParams R :=
  ⟨-alpha * (-1 : R) ^ b_q0, "b_q1[" ++ L ++ "]"⟩

/-- `SU2Gate._f_params_q2_t0`: `phi = -beta * (-1) ** b_q1`,
label `b_q2[<gate_label>]`. -/
def f_params_q2_t0 {R : Type} [CommRing R] (beta : R) (L : String)
    (b_q1 : Nat) : ProjParams R :=
  ⟨-beta * (-1 : R) ^ b_q1, "b_q2[" ++ L ++ "]"⟩

/-- `SU2Gate._f_params_q3_t0`: `phi = -gamma * (-1) ** b_q2`,
label `b_q3[<gate_label>]`. -/
def f_params_q3_t0 {R : Type} [CommRing R] (gamma : R) (L : String)
    (b_q2 : Nat) : ProjParams R :=
  ⟨-gamma * (-1 : R) ^ b_q2, "b_q3[" ++ L ++ "]"⟩

/-- `SU2Gate._f_params_q4_t0`: `exponent = b_q1 + b_q3` (the X correction). -/
def f_params_q4_t0 (b_q1 b_q3 : Nat) : ExpParams :=
  ⟨b_q1 + b_q3⟩

/-- `SU2Gate._f_params_q4_t1`: `exponent = b_q0 + b_q2` (the Z correction). -/
def f_params_q4_t1 (b_q0 b_q2 : Nat) : ExpParams :=
  ⟨b_q0 + b_q2⟩

/-- The `SU2Gate._operation_dictionary` built in `SU2Gate.__init__`, keyed by
the node index of the 5-node path gate graph. -/
def su2OperationDictionary {R : Type} [CommRing R]
    (alpha beta gamma : R) (L : String) : List (Nat × NodeOps R) :=
  [ (0, ⟨[GateRef.projB],
         [ParamFun.ar0 (f_params_q0_t0 L)],
         [none]⟩),
    (1, ⟨[GateRef.projB],
         [ParamFun.ar1 (f_params_q1_t0 alpha L)],
         [some ["b_q0[" ++ L ++ "]"]]⟩),
    (2, ⟨[GateRef.projB],
         [ParamFun.ar1 (f_params_q2_t0 beta L)],
         [some ["b_q1[" ++ L ++ "]"]]⟩),
    (3, ⟨[GateRef.projB],
         [ParamFun.ar1 (f_params_q3_t0 gamma L)],
         [some ["b_q2[" ++ L ++ "]"]]⟩),
    (4, ⟨[GateRef.xPow, GateRef.zPow],
         [ParamFun.ar2 f_params_q4_t0, ParamFun.ar2 f_params_q4_t1],
         [some ["b_q1[" ++ L ++ "]", "b_q3[" ++ L ++ "]"],
          some ["b_q0[" ++ L ++ "]", "b_q2[" ++ L ++ "]"]]⟩) ]

/-- The data held by an `SU2Gate` instance: the three Euler angles and the
gate label (the gate graph and operation dictionary are determined by
these, see `SU2GateData.operationDictionary`). -/
structure SU2GateData (R : Type) where
  alpha : R
  beta : R
  gamma : R
  gate_label : String

/-- Nodes of `nx.path_graph(5)`, the `_gate_graph` of every `SU2Gate`. -/
def SU2GateData.gateGraphNodes {R : Type} (_ : SU2GateData R) : List Nat :=
  [0, 1, 2, 3, 4]

/-- Edges of `nx.path_graph(5)`, the `_gate_graph` of every `SU2Gate`. -/
def SU2GateData.gateGraphEdges {R : Type} (_ : SU2GateData R) :
    List (Nat × Nat) :=
  [(0, 1), (1, 2), (2, 3), (3, 4)]

/-- The operation dictionary of an `SU2Gate` instance. -/
def SU2GateData.operationDictionary {R : Type} [CommRing R]
    (g : SU2GateData R) : List (Nat × NodeOps R) :=
  su2OperationDictionary g.alpha g.beta g.gamma g.gate_label

/-- `SU2Gate.__init__(alpha, beta, gamma, gate_label)`. -/
def mkSU2Gate {R : Type} (alpha beta gamma : R) (gate_label : String) :
    SU2GateData R :=
  ⟨alpha, beta, gamma, gate_label⟩

/-- `XPowGate.__init__(exponent)`: `SU2Gate(alpha=0, beta=0,
gamma=-np.pi*exponent)` with the default gate label `''`.  `piv` stands for
the float constant `np.pi`. -/
def mkXPowGate {R : Type} [CommRing R] (piv exponent : R) : SU2GateData R :=
  mkSU2Gate 0 0 (-piv * exponent) ""

/-- `X.__init__()`: `XPowGate(exponent=1.0)`. -/
def mkX {R : Type} [CommRing R] (piv : R) : SU2GateData R :=
  mkXPowGate piv 1

/-- `YPowGate.__init__(exponent)`: `SU2Gate(alpha=0, beta=-np.pi*exponent,
gamma=-np.pi*exponent)`. -/
def mkYPowGate {R : Type} [CommRing R] (piv exponent : R) : SU2GateData R :=
  mkSU2Gate 0 (-piv * exponent) (-piv * exponent) ""

/-- `Y.__init__()`: `YPowGate(exponent=1.0)`. -/
def mkY {R : Type} [CommRing R] (piv : R) : SU2GateData R :=
  mkYPowGate piv 1

/-- `ZPowGate.__init__(exponent)`: `SU2Gate(alpha=0, beta=-np.pi*exponent,
gamma=0)`. -/
def mkZPowGate {R : Type} [CommRing R] (piv exponent : R) : SU2GateData R :=
  mkSU2Gate 0 (-piv * exponent) 0 ""

/-- `Z.__init__()`: `ZPowGate(exponent=1.0)`. -/
def mkZ {R : Type} [CommRing R] (piv : R) : SU2GateData R :=
  mkZPowGate piv 1

/-- The measurement labels a stored parameter provider produces: projector
providers return a record carrying a `measurement_label` (constant in the
outcome-bit argument), corrective-unitary providers produce none. -/
def ParamFun.producedLabels {R : Type} : ParamFun R → List String
  | .ar0 p => [p.measurement_label]
  | .ar1 f => [(f 0).measurement_label]
  | .ar2 _ => []

/-- All measurement labels produced by the operation slots of one node. -/
def NodeOps.producedLabels {R : Type} (n : NodeOps R) : List String :=
  (n.parameters.map ParamFun.producedLabels).flatten

/-- Claim C1: for every `SU2Gate` with angles `alpha`, `beta`, `gamma` and
gate label `L`, the operation dictionary assigns to node 0 a
`Projector_B_phi` with `phi = 0`, no dependency and measurement label
`b_q0[L]`; and for every outcome bit `b`, node 1's parameter provider
applied to `b` yields `phi = -alpha * (-1)^b` with label `b_q1[L]`
depending only on `b_q0[L]`, node 2's yields `phi = -beta * (-1)^b` with
label `b_q2[L]` depending only on `b_q1[L]`, and node 3's yields
`phi = -gamma * (-1)^b` with label `b_q3[L]` depending only on `b_q2[L]`. -/
theorem su2_measurement_nodes_spec {R : Type} [CommRing R]
    (alpha beta gamma : R) (L : String) :
    (su2OperationDictionary alpha beta gamma L).lookup 0 =
      some ⟨[GateRef.projB],
            [ParamFun.ar0 ⟨0, "b_q0[" ++ L ++ "]"⟩],
            [none]⟩ ∧
    ((su2OperationDictionary alpha beta gamma L).lookup 1 =
      some ⟨[GateRef.projB],
            [ParamFun.ar1 (f_params_q1_t0 alpha L)],
            [some ["b_q0[" ++ L ++ "]"]]⟩ ∧
      ∀ b : Nat, f_params_q1_t0 alpha L b =
        ⟨-alpha * (-1 : R) ^ b, "b_q1[" ++ L ++ "]"⟩) ∧
    ((su2OperationDictionary alpha beta gamma L).lookup 2 =
      some ⟨[GateRef.projB],
            [ParamFun.ar1 (f_params_q2_t0 beta L)],
            [some ["b_q1[" ++ L ++ "]"]]⟩ ∧
      ∀ b : Nat, f_params_q2_t0 beta L b =
        ⟨-beta * (-1 : R) ^ b, "b_q2[" ++ L ++ "]"⟩) ∧
    ((su2OperationDictionary alpha beta gamma L).lookup 3 =
      some ⟨[GateRef.projB],
            [ParamFun.ar1 (f_params_q3_t0 gamma L)],
            [some ["b_q2[" ++ L ++ "]"]]⟩ ∧
      ∀ b : Nat, f_params_q3_t0 gamma L b =
        ⟨-gamma * (-1 : R) ^ b, "b_q3[" ++ L ++ "]"⟩) :=
  ⟨rfl, ⟨rfl, fun _ => rfl⟩, ⟨rfl, fun _ => rfl⟩, ⟨rfl, fun _ => rfl⟩⟩

/-- Claim C2 counterexample: at outcome bits `b_q1 = b_q3 = 1` the stored
X-correction provider of node 4 returns exponent `1 + 1 = 2`, whereas the
claimed parity `(1 + 1) % 2` is `0`, so the X-power exponent is not the
parity mod 2. -/
theorem su2_node4_x_exponent_not_parity :
    (f_params_q4_t0 1 1).exponent = 2 ∧
    (1 + 1) % 2 = 0 ∧
    (f_params_q4_t0 1 1).exponent ≠ (1 + 1) % 2 := by
  refine ⟨rfl, rfl, ?_⟩
  decide

/-- Claim C2 (amended): for every `SU2Gate`, node 4 of the operation
dictionary contains exactly two corrective unitaries — an X-power gate
whose exponent equals the sum `b_q1 + b_q3` (not reduced mod 2), depending
exactly on labels `b_q1[L]` and `b_q3[L]`, and a Z-power gate whose
exponent equals `b_q0 + b_q2`, depending exactly on labels `b_q0[L]` and
`b_q2[L]`. -/
theorem su2_node4_corrections_spec {R : Type} [CommRing R]
    (alpha beta gamma : R) (L : String) :
    (su2OperationDictionary alpha beta gamma L).lookup 4 =
      some ⟨[GateRef.xPow, GateRef.zPow],
            [ParamFun.ar2 f_params_q4_t0, ParamFun.ar2 f_params_q4_t1],
            [some ["b_q1[" ++ L ++ "]", "b_q3[" ++ L ++ "]"],
             some ["b_q0[" ++ L ++ "]", "b_q2[" ++ L ++ "]"]]⟩ ∧
    (∀ b_q1 b_q3 : Nat, f_params_q4_t0 b_q1 b_q3 = ⟨b_q1 + b_q3⟩) ∧
    (∀ b_q0 b_q2 : Nat, f_params_q4_t1 b_q0 b_q2 = ⟨b_q0 + b_q2⟩) :=
  ⟨rfl, fun _ _ => rfl, fun _ _ => rfl⟩

/-- Claim C7: for every exponent `theta`, `XPowGate(theta)` constructs
exactly the `SU2Gate` with `alpha = 0`, `beta = 0`, `gamma = -pi*theta`
and empty gate label, and `X()` constructs exactly `XPowGate` with
exponent 1; hence `X()`, `XPowGate(1.0)` and `SU2Gate(0, 0, -pi)` have
identical gate graphs and operation dictionaries. -/
theorem xpowgate_is_su2_specialization {R : Type} [CommRing R]
    (piv theta : R) :
    mkXPowGate piv theta = mkSU2Gate 0 0 (-piv * theta) "" ∧
    mkX piv = mkXPowGate piv 1 ∧
    (mkX piv).gateGraphNodes = (mkSU2Gate 0 0 (-piv) "").gateGraphNodes ∧
    (mkX piv).gateGraphEdges = (mkSU2Gate 0 0 (-piv) "").gateGraphEdges ∧
    (mkXPowGate piv 1).operationDictionary =
      (mkSU2Gate 0 0 (-piv) "").operationDictionary ∧
    (mkX piv).operationDictionary =
      (mkSU2Gate 0 0 (-piv) "").operationDictionary := by
  have hdict : (mkXPowGate piv 1).operationDictionary =
      (mkSU2Gate 0 0 (-piv) "").operationDictionary := by
    show su2OperationDictionary 0 0 (-piv * 1) "" =
      su2OperationDictionary 0 0 (-piv) ""
    rw [mul_one]
  exact ⟨rfl, rfl, rfl, rfl, hdict, hdict⟩

/-- Claim C3: for every `SU2Gate` (any angles, any gate label), and hence
for every shipped gate class `X`, `Y`, `Z`, `XPowGate`, `YPowGate`,
`ZPowGate`: at every node of the gate graph the three per-node sequences
`gates`, `parameters`, `previous_measurement_dependencies` have equal
length, and every dependency label referenced at node `n` is the
measurement label produced at some node `m < n` (no forward or self
references). -/
theorem su2_structural_invariants {R : Type} [CommRing R]
    (g : SU2GateData R) :
    (∀ p ∈ g.operationDictionary,
        p.2.gates.length = p.2.parameters.length ∧
        p.2.parameters.length =
          p.2.previous_measurement_dependencies.length) ∧
    (∀ p ∈ g.operationDictionary,
        ∀ d ∈ p.2.previous_measurement_dependencies,
          ∀ l ∈ d.getD [],
            ∃ q ∈ g.operationDictionary,
              q.1 < p.1 ∧ l ∈ q.2.producedLabels) := by
  constructor
  · intro p hp
    fin_cases hp <;> exact ⟨rfl, rfl⟩
  · intro p hp
    fin_cases hp <;> intro d hd <;> fin_cases hd <;> intro l hl <;>
      fin_cases hl
    · exact ⟨_, List.Mem.head _, Nat.zero_lt_one, List.Mem.head _⟩
    · exact ⟨_, List.Mem.tail _ (List.Mem.head _), by omega, List.Mem.head _⟩
    · exact ⟨_, List.Mem.tail _ (List.Mem.tail _ (List.Mem.head _)), by omega,
        List.Mem.head _⟩
    · exact ⟨_, List.Mem.tail _ (List.Mem.head _), by omega, List.Mem.head _⟩
    · exact ⟨_, List.Mem.tail _ (List.Mem.tail _ (List.Mem.tail _
        (List.Mem.head _))), by omega, List.Mem.head _⟩
    · exact ⟨_, List.Mem.head _, by omega, List.Mem.head _⟩
    · exact ⟨_, List.Mem.tail _ (List.Mem.tail _ (List.Mem.head _)), by omega,
        List.Mem.head _⟩

/-- Witness for C3: instantiated at `SU2Gate(0, 0, 0, '')` over the
rationals, the node-1 dependency label `b_q0[]` is produced at a node of
strictly smaller index, and the three sequences at node 4 have equal
length 2. -/
theorem su2_structural_invariants_witness :
    (∃ q ∈ (mkSU2Gate (0 : ℚ) 0 0 "").operationDictionary,
        q.1 < 1 ∧ ("b_q0[" ++ "" ++ "]") ∈ q.2.producedLabels) ∧
    ∀ p ∈ (mkSU2Gate (0 : ℚ) 0 0 "").operationDictionary,
        p.2.gates.length = p.2.parameters.length := by
  constructor
  · exact (su2_structural_invariants (mkSU2Gate (0 : ℚ) 0 0 "")).2
      _ (List.Mem.tail _ (List.Mem.head _)) _ (List.Mem.head _)
      _ (List.Mem.head _)
  · intro p hp
    exact ((su2_structural_invariants (mkSU2Gate (0 : ℚ) 0 0 "")).1
      p hp).1

/-! ## Basis projectors (`mbqcirq/measurements/projectors.py`) -/

/-- A circuit operation emitted by a projector decomposition or by the
graph-state initialization circuit: `cirq.ZPowGate(exponent=e)(q)`,
`cirq.H(q)`, `cirq.measure(q, key=k)`,
`cirq.measure_single_paulistring(cirq.X(q), key=k)`,
`cirq.measure_single_paulistring(cirq.Y(q), key=k)`, `cirq.CZ(q1, q2)`. -/
inductive CircOp (R Q : Type) where
  | zPowGate (exponent : R) (q : Q)
  | hGate (q : Q)
  | measureOp (key : String) (q : Q)
  | pauliMeasureX (key : String) (q : Q)
  | pauliMeasureY (key : String) (q : Q)
  | czGate (q1 q2 : Q)

/-- `Projector_B_phi._decompose_` on qubit `q`:
`cirq.ZPowGate(exponent=-phi/np.pi)(q)`, `cirq.H(q)`,
`cirq.measure(q, key=measurement_label)`, and, when
`collapse_qubit_state` holds, `cirq.H(q)` then
`cirq.ZPowGate(exponent=phi/np.pi)(q)`.  `piv` stands for `np.pi`. -/
def projBphiDecompose {R Q : Type} [Field R] (piv phi : R)
    (measurement_label : String) (collapse_qubit_state : Bool) (q : Q) :
    List (CircOp R Q) :=
  [CircOp.zPowGate (-phi / piv) q,
   CircOp.hGate q,
   CircOp.measureOp measurement_label q] ++
  (if collapse_qubit_state then
     [CircOp.hGate q, CircOp.zPowGate (phi / piv) q]
   else [])

/-- `Projector_X._decompose_` on qubit `q`:
`cirq.measure_single_paulistring(cirq.X(q), key=measurement_label)`. -/
def projXDecompose {R Q : Type} (measurement_label : String) (q : Q) :
    List (CircOp R Q) :=
  [CircOp.pauliMeasureX measurement_label q]

/-- `Projector_Y._decompose_` on qubit `q`:
`cirq.measure_single_paulistring(cirq.Y(q), key=measurement_label)`. -/
def projYDecompose {R Q : Type} (measurement_label : String) (q : Q) :
    List (CircOp R Q) :=
  [CircOp.pauliMeasureY measurement_label q]

/-- `Projector_Z._decompose_` on qubit `q`:
`cirq.measure(q, key=measurement_label)`. -/
def projZDecompose {R Q : Type} (measurement_label : String) (q : Q) :
    List (CircOp R Q) :=
  [CircOp.measureOp measurement_label q]

/-- Whether a circuit operation is a computational-basis measurement. -/
def CircOp.isMeasureOp {R Q : Type} : CircOp R Q → Bool
  | .measureOp _ _ => true
  | _ => false

/-- Claim C5: for every `phi`, measurement label and `collapse_qubit_state`
flag, the decomposition of `Projector_B_phi` on a qubit `q` is exactly a
phase rotation `P(-phi)` (Z-power gate of exponent `-phi/pi`) on `q`, then
a Hadamard on `q`, then exactly one computational-basis measurement of `q`
keyed by the measurement label; when the flag is true it is followed by
exactly a Hadamard and then `P(phi)` on `q`, and when false no further
operations are emitted. -/
theorem projBphi_decompose_spec {R Q : Type} [Field R] (piv phi : R)
    (lab : String) (q : Q) :
    projBphiDecompose piv phi lab false q =
      [CircOp.zPowGate (-phi / piv) q,
       CircOp.hGate q,
       CircOp.measureOp lab q] ∧
    projBphiDecompose piv phi lab true q =
      [CircOp.zPowGate (-phi / piv) q,
       CircOp.hGate q,
       CircOp.measureOp lab q,
       CircOp.hGate q,
       CircOp.zPowGate (phi / piv) q] ∧
    (∀ c : Bool,
      ((projBphiDecompose piv phi lab c q).filter CircOp.isMeasureOp) =
        [CircOp.measureOp lab q]) := by
  refine ⟨rfl, rfl, fun c => ?_⟩
  cases c <;> rfl

/-- Claim C6 counterexample: `Projector_Z` (default label `Z`) decomposes to
a single computational-basis measurement, which differs from the
`Projector_B_phi` decomposition at every angle `phi` (and every value of
pi and of the collapse flag): the latter always emits a basis-change
rotation and Hadamard before its measurement. -/
theorem projZ_not_a_Bphi_preset :
    ¬ ∃ (piv phi : ℚ) (c : Bool),
        projZDecompose "Z" (0 : Nat) =
          projBphiDecompose piv phi "Z" c (0 : Nat) := by
  rintro ⟨piv, phi, c, h⟩
  cases c <;> simp [projZDecompose, projBphiDecompose] at h

/-- Claim C6 (amended): none of the three named projectors is a preset of
`Projector_B_phi`; each carries its own measurement logic.  `Projector_X`
and `Projector_Y` decompose to a single Pauli-X resp. Pauli-Y observable
measurement and `Projector_Z` to a single computational-basis measurement,
and none of the three decompositions equals the `Projector_B_phi`
decomposition at any angle. -/
theorem named_projectors_own_logic {R Q : Type} [Field R]
    (lab lab2 : String) (piv phi : R) (c : Bool) (q : Q) :
    @projXDecompose R Q lab q = [CircOp.pauliMeasureX lab q] ∧
    @projYDecompose R Q lab q = [CircOp.pauliMeasureY lab q] ∧
    @projZDecompose R Q lab q = [CircOp.measureOp lab q] ∧
    projXDecompose lab q ≠ projBphiDecompose piv phi lab2 c q ∧
    projYDecompose lab q ≠ projBphiDecompose piv phi lab2 c q ∧
    projZDecompose lab q ≠ projBphiDecompose piv phi lab2 c q := by
  refine ⟨rfl, rfl, rfl, ?_, ?_, ?_⟩ <;> cases c <;>
    simp [projXDecompose, projYDecompose, projZDecompose, projBphiDecompose]

/-! ## Graph states (`mbqcirq/states/graph_states.py`, `mbqcirq/graphs/__init__.py`) -/

/-- A node of a structural graph: an integer index for 1-D chains
(`nx.path_graph`) or an integer coordinate pair for 2-D grids
(`nx.grid_2d_graph`). -/
inductive NodeId where
  | line (i : Int)
  | grid (r c : Int)
deriving DecidableEq

/-- A backend qubit: `cirq.LineQubit(i)` or `cirq.GridQubit(r, c)`. -/
inductive Qubit where
  | lineQubit (i : Int)
  | gridQubit (r c : Int)
deriving DecidableEq

/-- `GraphDescription` from `mbqcirq/graphs/__init__.py`: optional flags
classifying the coordinate interpretation of the nodes. -/
structure GraphDescription where
  is_grid : Option Bool
  dimension : Option Int
deriving DecidableEq

/-- The structural-graph collaborator as consumed by `AbstractGraphState`:
an ordered node list, an edge list and a description record. -/
structure StructuralGraph where
  nodes : List NodeId
  edges : List (NodeId × NodeId)
  description : GraphDescription
deriving DecidableEq

/-- Python's `list.index`: the position of the first occurrence of `a` in
the list, or `none` where Python raises `ValueError`. -/
def indexInList {A : Type} [DecidableEq A] (a : A) : List A → Option Nat
  | [] => none
  | b :: bs => if b = a then some 0 else (indexInList a bs).map (· + 1)

/-- Sequencing of a fallible map over a list, as performed by the Python
loops and comprehensions that build qubit lists and circuit operation
lists: the first raised error aborts the whole construction. -/
def mapExcept {A B E : Type} (f : A → Except E B) : List A → Except E (List B)
  | [] => Except.ok []
  | a :: as => do
    let b ← f a
    let bs ← mapExcept f as
    pure (b :: bs)

/-- `cirq.LineQubit(v)` on a node `v`, an error when the node is not an
integer index. -/
def lineQubitOf : NodeId → Except String Qubit
  | .line i => Except.ok (Qubit.lineQubit i)
  | .grid _ _ => Except.error "TypeError"

/-- `cirq.GridQubit(*v)` on a node `v`, an error when the node is not a
coordinate pair. -/
def gridQubitOf : NodeId → Except String Qubit
  | .grid r c => Except.ok (Qubit.gridQubit r c)
  | .line _ => Except.error "TypeError"

/-- The qubit the code associates to a node: a line qubit at the node's
integer index, or a grid qubit at the node's coordinate pair. -/
def qubitOfNode : NodeId → Qubit
  | .line i => Qubit.lineQubit i
  | .grid r c => Qubit.gridQubit r c

/-- `AbstractGraphState._initialize_qubits`: one `cirq.LineQubit` per node
when `description.dimension == 1`, one `cirq.GridQubit` per node when
`description.dimension == 2`, and otherwise `raise NotImplemented`. -/
def initializeQubits (g : StructuralGraph) : Except String (List Qubit) :=
  if g.description.dimension = some 1 then
    mapExcept lineQubitOf g.nodes
  else if g.description.dimension = some 2 then
    mapExcept gridQubitOf g.nodes
  else
    Except.error "NotImplemented"

/-- One `cirq.CZ(qubit1, qubit2)` appended per edge by
`AbstractGraphState._produce_initialization_circuit`, where
`qubit1 = qubits[nodes.index(n1)]` and `qubit2 = qubits[nodes.index(n2)]`;
a node missing from `nodes` raises `ValueError` and an out-of-range
position raises `IndexError`. -/
def czOfEdge {R : Type} (nodes : List NodeId) (qubits : List Qubit)
    (e : NodeId × NodeId) : Except String (CircOp R Qubit) :=
  match indexInList e.1 nodes, indexInList e.2 nodes with
  | some i, some j =>
    match qubits[i]?, qubits[j]? with
    | some q1, some q2 => Except.ok (CircOp.czGate q1 q2)
    | _, _ => Except.error "IndexError"
  | _, _ => Except.error "ValueError"

/-- `AbstractGraphState._produce_initialization_circuit`: a Hadamard on
every qubit followed by one `cirq.CZ` for every structural edge. -/
def produceInitializationCircuit {R : Type} (nodes : List NodeId)
    (qubits : List Qubit) (edges : List (NodeId × NodeId)) :
    Except String (List (CircOp R Qubit)) := do
  let czs ← mapExcept (czOfEdge nodes qubits) edges
  pure (qubits.map CircOp.hGate ++ czs)

/-- The state owned by a constructed `GraphState`: the underlying
structural graph, the qubit list, the initialization circuit, and the
eagerly computed state vector (of abstract type `S`, produced by the
external simulator). -/
structure GraphStateData (R S : Type) where
  graph : StructuralGraph
  qubits : List Qubit
  initialization_circuit : List (CircOp R Qubit)
  state_vector : S

/-- `GraphState.__init__(graph)` and its `_setup`: initialize the qubits,
produce the initialization circuit, and compute the state vector by
handing the circuit to the external simulator
(`qsimcirq.QSimSimulator().simulate`, whose `initial_state` argument
defaults to the all-zero computational state); `simulate` stands for that
external collaborator. -/
def mkGraphState {R S : Type} (simulate : List (CircOp R Qubit) → S)
    (g : StructuralGraph) : Except String (GraphStateData R S) := do
  let qubits ← initializeQubits g
  let circ ← produceInitializationCircuit g.nodes qubits g.edges
  pure ⟨g, qubits, circ, simulate circ⟩

/-- The qubit stored at the list position of a node in the structural node
order (used to state which `cirq.CZ` each edge contributes). -/
def qubitAt (nodes : List NodeId) (qubits : List Qubit) (n : NodeId) :
    Qubit :=
  match indexInList n nodes with
  | some i => qubits[i]?.getD (Qubit.lineQubit 0)
  | none => Qubit.lineQubit 0

/-- A Python value passed as a positional argument to `get_qubit`: an
integer node index or an integer coordinate pair. -/
inductive PyVal where
  | pint (i : Int)
  | ppair (r c : Int)
deriving DecidableEq

/-- The structural node equal, as a Python value, to a `get_qubit`
argument. -/
def PyVal.toNode : PyVal → NodeId
  | .pint i => NodeId.line i
  | .ppair r c => NodeId.grid r c

/-- `AbstractGraphState.get_qubit(*args)`: with one argument, look that
argument up in `graph.nodes`; with two arguments, look up the tuple
`args`; `list.index` raises `ValueError` on an absent value and
`qubits[idx]` raises `IndexError` out of range; with any other argument
count the local `idx` is never assigned, so the final `return` raises
`UnboundLocalError`. -/
def get_qubit (g : StructuralGraph) (qubits : List Qubit)
    (args : List PyVal) : Except String Qubit :=
  match args with
  | [a] =>
    match indexInList a.toNode g.nodes with
    | some idx =>
      match qubits[idx]? with
      | some q => Except.ok q
      | none => Except.error "IndexError"
    | none => Except.error "ValueError"
  | [x, y] =>
    match x, y with
    | PyVal.pint a, PyVal.pint b =>
      match indexInList (NodeId.grid a b) g.nodes with
      | some idx =>
        match qubits[idx]? with
        | some q => Except.ok q
        | none => Except.error "IndexError"
      | none => Except.error "ValueError"
    | _, _ => Except.error "ValueError"
  | _ => Except.error "UnboundLocalError"

theorem except_ok_bind {E A B : Type} (a : A) (f : A → Except E B) :
    (Except.ok a >>= f : Except E B) = f a := rfl

theorem except_pure {E A : Type} (a : A) :
    (pure a : Except E A) = Except.ok a := rfl

theorem indexInList_of_mem {A : Type} [DecidableEq A] (a : A) :
    ∀ l : List A, a ∈ l → ∃ i, indexInList a l = some i ∧ i < l.length := by
  intro l
  induction l with
  | nil => intro h; cases h
  | cons b bs ih =>
    intro h
    by_cases hb : b = a
    · exact ⟨0, by simp [indexInList, hb], Nat.succ_pos _⟩
    · have hmem : a ∈ bs := by
        cases h with
        | head => exact absurd rfl hb
        | tail _ h' => exact h'
      obtain ⟨i, hi, hlt⟩ := ih hmem
      refine ⟨i + 1, by simp [indexInList, hb, hi], ?_⟩
      simp only [List.length_cons]
      omega

theorem mem_of_indexInList_some {A : Type} [DecidableEq A] (a : A) :
    ∀ (l : List A) (i : Nat), indexInList a l = some i → a ∈ l := by
  intro l
  induction l with
  | nil => intro i h; simp [indexInList] at h
  | cons b bs ih =>
    intro i h
    by_cases hb : b = a
    · exact hb ▸ List.Mem.head _
    · simp only [indexInList, if_neg hb] at h
      cases h' : indexInList a bs with
      | none => rw [h'] at h; simp at h
      | some j => exact List.Mem.tail _ (ih j h')

theorem mapExcept_ok {A B E : Type} (f : A → Except E B) (gfun : A → B) :
    ∀ l : List A, (∀ a ∈ l, f a = Except.ok (gfun a)) →
      mapExcept f l = Except.ok (l.map gfun) := by
  intro l
  induction l with
  | nil => intro _; rfl
  | cons a as ih =>
    intro h
    have ha := h a (List.Mem.head _)
    have hrest := ih fun b hb => h b (List.Mem.tail _ hb)
    simp only [mapExcept, ha, hrest]
    rfl

theorem czOfEdge_ok {R : Type} (nodes : List NodeId) (qs : List Qubit)
    (hlen : qs.length = nodes.length) (e : NodeId × NodeId)
    (h1 : e.1 ∈ nodes) (h2 : e.2 ∈ nodes) :
    @czOfEdge R nodes qs e =
      Except.ok (CircOp.czGate (qubitAt nodes qs e.1)
        (qubitAt nodes qs e.2)) := by
  obtain ⟨i, hi, hilt⟩ := indexInList_of_mem e.1 nodes h1
  obtain ⟨j, hj, hjlt⟩ := indexInList_of_mem e.2 nodes h2
  obtain ⟨q1, hq1⟩ : ∃ q1, qs[i]? = some q1 := by
    cases hgi : qs[i]? with
    | none => exact absurd (List.getElem?_eq_none_iff.mp hgi) (by omega)
    | some q1 => exact ⟨q1, rfl⟩
  obtain ⟨q2, hq2⟩ : ∃ q2, qs[j]? = some q2 := by
    cases hgj : qs[j]? with
    | none => exact absurd (List.getElem?_eq_none_iff.mp hgj) (by omega)
    | some q2 => exact ⟨q2, rfl⟩
  simp [czOfEdge, qubitAt, hi, hj, hq1, hq2]

/-- Claim C8: for every structural graph `g`, constructing `GraphState(g)`
builds an initialization circuit of exactly one Hadamard on each qubit
(one qubit per node, in node order) followed by exactly one
controlled-phase (`cirq.CZ`) operation for each structural edge, and
eagerly computes the `state_vector` at construction time by handing that
circuit to the external simulator (which simulates it from the all-zero
computational state, its default initial state); the structural graph is
stored unchanged, not mutated. -/
theorem graphstate_construction_spec {R S : Type}
    (simulate : List (CircOp R Qubit) → S) (g : StructuralGraph)
    (qs : List Qubit)
    (hq : initializeQubits g = Except.ok qs)
    (hlen : qs.length = g.nodes.length)
    (hedges : ∀ e ∈ g.edges, e.1 ∈ g.nodes ∧ e.2 ∈ g.nodes) :
    mkGraphState simulate g = Except.ok
      ⟨g, qs,
       qs.map CircOp.hGate ++
         g.edges.map (fun e =>
           CircOp.czGate (qubitAt g.nodes qs e.1) (qubitAt g.nodes qs e.2)),
       simulate (qs.map CircOp.hGate ++
         g.edges.map (fun e =>
           CircOp.czGate (qubitAt g.nodes qs e.1)
             (qubitAt g.nodes qs e.2)))⟩ := by
  have hcz : mapExcept (@czOfEdge R g.nodes qs) g.edges =
      Except.ok (g.edges.map fun e =>
        CircOp.czGate (qubitAt g.nodes qs e.1) (qubitAt g.nodes qs e.2)) :=
    mapExcept_ok _ _ _ fun e he =>
      czOfEdge_ok g.nodes qs hlen e (hedges e he).1 (hedges e he).2
  simp only [mkGraphState, produceInitializationCircuit, hq, except_pure,
    except_ok_bind, hcz]

/-- Witness for C8: the 3-node 1-D chain with edges `(0,1)` and `(1,2)`,
with the external simulator instantiated by the circuit-length function,
yields exactly three Hadamards followed by the two CZ operations, and the
eagerly computed state vector (here the length, 5). -/
theorem graphstate_construction_spec_witness :
    @mkGraphState ℚ Nat (fun c => c.length)
      ⟨[NodeId.line 0, NodeId.line 1, NodeId.line 2],
       [(NodeId.line 0, NodeId.line 1), (NodeId.line 1, NodeId.line 2)],
       ⟨some false, some 1⟩⟩ =
    Except.ok
      ⟨⟨[NodeId.line 0, NodeId.line 1, NodeId.line 2],
        [(NodeId.line 0, NodeId.line 1), (NodeId.line 1, NodeId.line 2)],
        ⟨some false, some 1⟩⟩,
       [Qubit.lineQubit 0, Qubit.lineQubit 1, Qubit.lineQubit 2],
       [CircOp.hGate (Qubit.lineQubit 0), CircOp.hGate (Qubit.lineQubit 1),
        CircOp.hGate (Qubit.lineQubit 2),
        CircOp.czGate (Qubit.lineQubit 0) (Qubit.lineQubit 1),
        CircOp.czGate (Qubit.lineQubit 1) (Qubit.lineQubit 2)],
       5⟩ :=
  graphstate_construction_spec (fun c => c.length) _
    [Qubit.lineQubit 0, Qubit.lineQubit 1, Qubit.lineQubit 2]
    rfl rfl (by decide)

/-- Claim C9: qubit initialization assigns, for every structural graph of
dimension 1, one line qubit per node indexed by the node's integer index,
and for dimension 2 one grid qubit per node addressed by the node's
integer coordinate pair; for every graph whose `description.dimension` is
neither 1 nor 2 it raises an unsupported-configuration error and never
returns a qubit assignment. -/
theorem initializeQubits_spec (g : StructuralGraph) :
    (g.description.dimension = some 1 →
      (∀ n ∈ g.nodes, ∃ i, n = NodeId.line i) →
      initializeQubits g = Except.ok (g.nodes.map qubitOfNode)) ∧
    (g.description.dimension = some 2 →
      (∀ n ∈ g.nodes, ∃ r c, n = NodeId.grid r c) →
      initializeQubits g = Except.ok (g.nodes.map qubitOfNode)) ∧
    (g.description.dimension ≠ some 1 → g.description.dimension ≠ some 2 →
      initializeQubits g = Except.error "NotImplemented") := by
  refine ⟨?_, ?_, ?_⟩
  · intro h1 hline
    rw [initializeQubits, if_pos h1]
    refine mapExcept_ok _ _ _ fun n hn => ?_
    obtain ⟨i, rfl⟩ := hline n hn
    rfl
  · intro h2 hgrid
    rw [initializeQubits, if_neg (by simp [h2]), if_pos h2]
    refine mapExcept_ok _ _ _ fun n hn => ?_
    obtain ⟨r, c, rfl⟩ := hgrid n hn
    rfl
  · intro h1 h2
    rw [initializeQubits, if_neg h1, if_neg h2]

/-- Witness for C9: a 2-node 1-D chain gets line qubits 0 and 1, a 2-node
dimension-2 graph gets the grid qubits, and a graph of unset dimension
raises the unsupported-configuration error. -/
theorem initializeQubits_spec_witness :
    initializeQubits ⟨[NodeId.line 0, NodeId.line 1], [],
        ⟨some false, some 1⟩⟩ =
      Except.ok [Qubit.lineQubit 0, Qubit.lineQubit 1] ∧
    initializeQubits ⟨[NodeId.grid 0 0, NodeId.grid 0 1], [],
        ⟨some true, some 2⟩⟩ =
      Except.ok [Qubit.gridQubit 0 0, Qubit.gridQubit 0 1] ∧
    initializeQubits ⟨[NodeId.line 0], [], ⟨none, none⟩⟩ =
      Except.error "NotImplemented" := by
  refine ⟨?_, ?_, ?_⟩
  · exact (initializeQubits_spec _).1 rfl (by
      intro n hn
      fin_cases hn
      exacts [⟨0, rfl⟩, ⟨1, rfl⟩])
  · exact (initializeQubits_spec _).2.1 rfl (by
      intro n hn
      fin_cases hn
      exacts [⟨0, 0, rfl⟩, ⟨0, 1, rfl⟩])
  · exact (initializeQubits_spec _).2.2 (by decide) (by decide)

/-- Claim C10: `get_qubit` returns the qubit at the list position of the
given node in the structural node order when called with exactly one
argument (a node index) or exactly two arguments (a coordinate pair,
matched as a tuple); with zero or three-or-more arguments the index
variable is never assigned and it raises an error rather than returning a
qubit, and for a coordinate not present in the graph's nodes it raises an
error rather than returning a default. -/
theorem get_qubit_spec (g : StructuralGraph) (qs : List Qubit) :
    (∀ (a : PyVal) (i : Nat) (q : Qubit),
        indexInList a.toNode g.nodes = some i → qs[i]? = some q →
        get_qubit g qs [a] = Except.ok q) ∧
    (∀ (x y : Int) (i : Nat) (q : Qubit),
        indexInList (NodeId.grid x y) g.nodes = some i →
        qs[i]? = some q →
        get_qubit g qs [PyVal.pint x, PyVal.pint y] = Except.ok q) ∧
    (get_qubit g qs [] = Except.error "UnboundLocalError") ∧
    (∀ (a b c : PyVal) (rest : List PyVal),
        get_qubit g qs (a :: b :: c :: rest) =
          Except.error "UnboundLocalError") ∧
    (∀ a : PyVal, a.toNode ∉ g.nodes →
        get_qubit g qs [a] = Except.error "ValueError") ∧
    (∀ x y : Int, NodeId.grid x y ∉ g.nodes →
        get_qubit g qs [PyVal.pint x, PyVal.pint y] =
          Except.error "ValueError") := by
  have hnone : ∀ (n : NodeId), n ∉ g.nodes → indexInList n g.nodes = none := by
    intro n hn
    cases h : indexInList n g.nodes with
    | none => rfl
    | some i => exact absurd (mem_of_indexInList_some n g.nodes i h) hn
  refine ⟨?_, ?_, rfl, fun a b c rest => rfl, ?_, ?_⟩
  · intro a i q hi hq
    simp [get_qubit, hi, hq]
  · intro x y i q hi hq
    simp [get_qubit, hi, hq]
  · intro a ha
    simp [get_qubit, hnone a.toNode ha]
  · intro x y ha
    simp [get_qubit, hnone _ ha]

/-- Witness for C10: on the 2-node chain `[5, 7]`, `get_qubit(7)` returns
the qubit at position 1, `get_qubit()` raises, `get_qubit(1, 2, 3)`
raises, and `get_qubit(9)` with a node not in the graph raises. -/
theorem get_qubit_spec_witness :
    get_qubit ⟨[NodeId.line 5, NodeId.line 7], [], ⟨some false, some 1⟩⟩
        [Qubit.lineQubit 5, Qubit.lineQubit 7] [PyVal.pint 7] =
      Except.ok (Qubit.lineQubit 7) ∧
    get_qubit ⟨[NodeId.line 5, NodeId.line 7], [], ⟨some false, some 1⟩⟩
        [Qubit.lineQubit 5, Qubit.lineQubit 7] [] =
      Except.error "UnboundLocalError" ∧
    get_qubit ⟨[NodeId.line 5, NodeId.line 7], [], ⟨some false, some 1⟩⟩
        [Qubit.lineQubit 5, Qubit.lineQubit 7]
        [PyVal.pint 1, PyVal.pint 2, PyVal.pint 3] =
      Except.error "UnboundLocalError" ∧
    get_qubit ⟨[NodeId.line 5, NodeId.line 7], [], ⟨some false, some 1⟩⟩
        [Qubit.lineQubit 5, Qubit.lineQubit 7] [PyVal.pint 9] =
      Except.error "ValueError" := by
  refine ⟨?_, ?_, ?_, ?_⟩
  · exact (get_qubit_spec _ _).1 (PyVal.pint 7) 1 (Qubit.lineQubit 7)
      (by decide) rfl
  · exact (get_qubit_spec _ _).2.2.1
  · exact (get_qubit_spec _ _).2.2.2.1 _ _ _ _
  · exact (get_qubit_spec _ _).2.2.2.2.1 (PyVal.pint 9) (by decide)

/-! ## Gate Graph Executor and classical outcome store

The repository's specification describes a Gate Graph Executor and a
`ClassicalOutcomeStore` (spec sections 3 and 4.3), but the sources ship no
executor module — only the gate graphs it would walk.  The definitions in
this section are therefore modelled from the spec, as marked. -/

/-- Modelled from the spec: the `ClassicalOutcomeStore` of spec section 3 —
a mapping from measurement label to classical outcome, populated
incrementally (append-only) during execution; the executor module holding
it is not shipped in the sources. -/
abbrev ClassicalOutcomeStore := List (String × Nat)

/-- Modelled from the spec: look a measurement label up in the outcome
store (first entry wins; entries are never shadowed during one
execution). -/
def lookupOutcome : ClassicalOutcomeStore → String → Option Nat
  | [], _ => none
  | (k, v) :: s, l => if k = l then some v else lookupOutcome s l

/-- Modelled from the spec: resolving a dependency label — reading a
not-yet-written label is an error, never a silent default. -/
def resolveOutcome (s : ClassicalOutcomeStore) (l : String) :
    Except String Nat :=
  match lookupOutcome s l with
  | some v => Except.ok v
  | none => Except.error ("unresolved dependency " ++ l)

/-- Modelled from the spec: a measurement appends exactly one new entry to
the outcome store under its label. -/
def recordOutcome (s : ClassicalOutcomeStore) (l : String) (v : Nat) :
    ClassicalOutcomeStore :=
  s ++ [(l, v)]

/-- Modelled from the spec: execute one operation slot of a node — gather
the outcomes named by the slot's dependency entry (failing on any absent
label), invoke the parameter provider on them, then append the measurement
outcome (supplied by the backend, abstracted as `oracle`) under the
produced measurement label for a projector, or leave the store unchanged
for a corrective unitary; a gate/provider/dependency arity mismatch is a
structural precondition violation. -/
def execSlot {R : Type} [CommRing R] (oracle : String → Nat)
    (gate : GateRef) (pf : ParamFun R) (dep : Option (List String))
    (s : ClassicalOutcomeStore) : Except String ClassicalOutcomeStore := do
  let vals ← mapExcept (resolveOutcome s) (dep.getD [])
  match gate, pf, vals with
  | GateRef.projB, ParamFun.ar0 p, [] =>
    pure (recordOutcome s p.measurement_label (oracle p.measurement_label))
  | GateRef.projB, ParamFun.ar1 f, [b] =>
    pure (recordOutcome s (f b).measurement_label
      (oracle (f b).measurement_label))
  | GateRef.xPow, ParamFun.ar2 _, [_, _] => pure s
  | GateRef.zPow, ParamFun.ar2 _, [_, _] => pure s
  | _, _, _ => Except.error "structural mismatch"

/-- Modelled from the spec: execute the operation slots of one node in
order, threading the outcome store. -/
def execSlots {R : Type} [CommRing R] (oracle : String → Nat) :
    List GateRef → List (ParamFun R) → List (Option (List String)) →
    ClassicalOutcomeStore → Except String ClassicalOutcomeStore
  | [], [], [], s => Except.ok s
  | gt :: gts, pf :: pfs, d :: ds, s => do
    let s' ← execSlot oracle gt pf d s
    execSlots oracle gts pfs ds s'
  | _, _, _, _ => Except.error "length mismatch"

/-- Modelled from the spec: execute one node of the gate graph. -/
def execNode {R : Type} [CommRing R] (oracle : String → Nat)
    (nops : NodeOps R) (s : ClassicalOutcomeStore) :
    Except String ClassicalOutcomeStore :=
  execSlots oracle nops.gates nops.parameters
    nops.previous_measurement_dependencies s

/-- Modelled from the spec: execute a gate graph's nodes in the fixed
topological (ascending node index) order. -/
def execGraph {R : Type} [CommRing R] (oracle : String → Nat) :
    List (Nat × NodeOps R) → ClassicalOutcomeStore →
    Except String ClassicalOutcomeStore
  | [], s => Except.ok s
  | (_, nops) :: rest, s => do
    let s' ← execNode oracle nops s
    execGraph oracle rest s'

/-- The measurement label produced at node `k` (`k ≤ 3`) of the `SU2Gate`
gate graph with gate label `L`. -/
def labelOfNode : Nat → String → String
  | 0, L => "b_q0[" ++ L ++ "]"
  | 1, L => "b_q1[" ++ L ++ "]"
  | 2, L => "b_q2[" ++ L ++ "]"
  | 3, L => "b_q3[" ++ L ++ "]"
  | _ + 4, _ => ""

/-- The outcome store after the first `k` measurement nodes of the
`SU2Gate` graph have executed against the backend outcomes `oracle`. -/
def storeAfter (oracle : String → Nat) (L : String) :
    Nat → ClassicalOutcomeStore
  | 0 => []
  | k + 1 => recordOutcome (storeAfter oracle L k) (labelOfNode k L)
      (oracle (labelOfNode k L))

theorem labelNe01 (L : String) :
    ("b_q0[" ++ L ++ "]" : String) ≠ "b_q1[" ++ L ++ "]" := by
  intro h
  have h2 := congrArg String.data h
  simp only [String.data_append] at h2
  simp [show "b_q0[".data = ['b', '_', 'q', '0', '['] from rfl,
        show "b_q1[".data = ['b', '_', 'q', '1', '['] from rfl] at h2

theorem labelNe02 (L : String) :
    ("b_q0[" ++ L ++ "]" : String) ≠ "b_q2[" ++ L ++ "]" := by
  intro h
  have h2 := congrArg String.data h
  simp only [String.data_append] at h2
  simp [show "b_q0[".data = ['b', '_', 'q', '0', '['] from rfl,
        show "b_q2[".data = ['b', '_', 'q', '2', '['] from rfl] at h2

theorem labelNe03 (L : String) :
    ("b_q0[" ++ L ++ "]" : String) ≠ "b_q3[" ++ L ++ "]" := by
  intro h
  have h2 := congrArg String.data h
  simp only [String.data_append] at h2
  simp [show "b_q0[".data = ['b', '_', 'q', '0', '['] from rfl,
        show "b_q3[".data = ['b', '_', 'q', '3', '['] from rfl] at h2

theorem labelNe12 (L : String) :
    ("b_q1[" ++ L ++ "]" : String) ≠ "b_q2[" ++ L ++ "]" := by
  intro h
  have h2 := congrArg String.data h
  simp only [String.data_append] at h2
  simp [show "b_q1[".data = ['b', '_', 'q', '1', '['] from rfl,
        show "b_q2[".data = ['b', '_', 'q', '2', '['] from rfl] at h2

theorem labelNe13 (L : String) :
    ("b_q1[" ++ L ++ "]" : String) ≠ "b_q3[" ++ L ++ "]" := by
  intro h
  have h2 := congrArg String.data h
  simp only [String.data_append] at h2
  simp [show "b_q1[".data = ['b', '_', 'q', '1', '['] from rfl,
        show "b_q3[".data = ['b', '_', 'q', '3', '['] from rfl] at h2

theorem labelNe23 (L : String) :
    ("b_q2[" ++ L ++ "]" : String) ≠ "b_q3[" ++ L ++ "]" := by
  intro h
  have h2 := congrArg String.data h
  simp only [String.data_append] at h2
  simp [show "b_q2[".data = ['b', '_', 'q', '2', '['] from rfl,
        show "b_q3[".data = ['b', '_', 'q', '3', '['] from rfl] at h2

/-- Claim C4: the Gate Graph Executor's outcome store is write-once per
label within one execution: resolving any label absent from the store
fails with an error (never a silent default), and on the `SU2Gate` gate
graph the label of node `k` is unresolvable before node `k` executes;
executing the whole graph in ascending node order succeeds, at no point
re-defines a written label (every label appears exactly once in the final
store), and once a label is written it resolves to that same outcome for
the remainder of the execution. -/
theorem outcome_store_write_once {R : Type} [CommRing R]
    (alpha beta gamma : R) (L : String) (oracle : String → Nat) :
    (∀ (s : ClassicalOutcomeStore) (l : String),
        lookupOutcome s l = none →
        resolveOutcome s l =
          Except.error ("unresolved dependency " ++ l)) ∧
    (∀ k, k < 4 →
        resolveOutcome (storeAfter oracle L k) (labelOfNode k L) =
          Except.error ("unresolved dependency " ++ labelOfNode k L)) ∧
    execGraph oracle (su2OperationDictionary alpha beta gamma L) [] =
      Except.ok (storeAfter oracle L 4) ∧
    (∀ i k, i < k → k ≤ 4 → i < 4 →
        resolveOutcome (storeAfter oracle L k) (labelOfNode i L) =
          Except.ok (oracle (labelOfNode i L))) ∧
    ((storeAfter oracle L 4).map Prod.fst).Nodup := by
  refine ⟨?_, ?_, ?_, ?_, ?_⟩
  · intro s l h
    simp [resolveOutcome, h]
  · intro k hk
    interval_cases k <;>
      simp [resolveOutcome, lookupOutcome, storeAfter, recordOutcome,
        labelOfNode, labelNe01 L, labelNe02 L, labelNe03 L, labelNe12 L,
        labelNe13 L, labelNe23 L]
  · simp [execGraph, execNode, execSlots, execSlot, su2OperationDictionary,
      mapExcept, resolveOutcome, lookupOutcome, recordOutcome, storeAfter,
      labelOfNode, except_ok_bind, except_pure, f_params_q0_t0,
      f_params_q1_t0, f_params_q2_t0, f_params_q3_t0, labelNe01 L,
      labelNe02 L, labelNe03 L, labelNe12 L, labelNe13 L, labelNe23 L]
  · intro i k hik hk hi
    interval_cases k <;> interval_cases i <;>
      simp [resolveOutcome, lookupOutcome, storeAfter, recordOutcome,
        labelOfNode, labelNe01 L, labelNe02 L, labelNe03 L, labelNe12 L,
        labelNe13 L, labelNe23 L]
  · simp [storeAfter, recordOutcome, labelOfNode, labelNe01 L, labelNe02 L,
      labelNe03 L, labelNe12 L, labelNe13 L, labelNe23 L]

/-- Witness for C4: with all angles 0, empty gate label and a backend that
always answers 0, resolving the label of node 0 on the empty store errors,
the full execution succeeds with the four-label store, and the node-0
label, once written, still resolves after the last node. -/
theorem outcome_store_write_once_witness :
    resolveOutcome [] (labelOfNode 0 "") =
      Except.error ("unresolved dependency " ++ labelOfNode 0 "") ∧
    execGraph (fun _ => 0) (su2OperationDictionary (0 : ℚ) 0 0 "") [] =
      Except.ok (storeAfter (fun _ => 0) "" 4) ∧
    resolveOutcome (storeAfter (fun _ => 0) "" 4) (labelOfNode 0 "") =
      Except.ok 0 := by
  obtain ⟨h1, h2, h3, h4, h5⟩ :=
    outcome_store_write_once (0 : ℚ) 0 0 "" (fun _ => 0)
  exact ⟨h2 0 (by decide), h3, h4 0 4 (by decide) (by decide) (by decide)⟩

end MBQCirq
